import Mathlib

/-!
Verification of the workout-data aggregation and prediction pipeline of the
fitness-tracker application (`src/app.py`).  The Python functions are embedded
shallowly: the persisted CSV table is a list of records, pandas data frames
are a header together with a list of rows, numeric values are rationals, and
dates are explicit year/month/day triples.  Each embedded definition carries a
comment pointing at the source lines it translates.
-/

/-- Python `str.strip()`: remove leading and trailing whitespace.
Implemented over the character list so that it evaluates by kernel
reduction (`String.trim` in the library does not). -/
def pyStrip (s : String) : String :=
  ⟨((s.data.dropWhile Char.isWhitespace).reverse.dropWhile Char.isWhitespace).reverse⟩

/-- A calendar date, as stored in the `Date` column (`YYYY-MM-DD`). -/
structure Date where
  year : ℕ
  month : ℕ
  day : ℕ
deriving DecidableEq

/-- Day count of a proleptic-Gregorian date, day 0 = 0000-03-01 (the civil
day-number algorithm used by standard date libraries).  Used both for
weekday computation and for comparing dates to a time window. -/
def daysFromCivil (dt : Date) : ℕ :=
  let y := if dt.month ≤ 2 then dt.year - 1 else dt.year
  let era := y / 400
  let yoe := y % 400
  let mp := if dt.month ≤ 2 then dt.month + 9 else dt.month - 3
  let doy := (153 * mp + 2) / 5 + dt.day - 1
  let doe := yoe * 365 + yoe / 4 - yoe / 100 + doy
  era * 146097 + doe

/-- ISO weekday of a civil day number: Monday = 1, ..., Sunday = 7. -/
def isoWeekday (z : ℕ) : ℕ := (z + 2) % 7 + 1

/-- Auxiliary congruence for the ISO long-year rule. -/
def pCal (y : ℕ) : ℕ := (y + y / 4 - y / 100 + y / 400) % 7

/-- Number of ISO weeks in year `y` (52 or 53). -/
def isoWeeksInYear (y : ℕ) : ℕ :=
  if pCal y = 4 ∨ pCal (y - 1) = 3 then 53 else 52

/-- ISO-8601 calendar week of a date, as the pair (ISO year, ISO week
number); this is what Python `date.isocalendar()` returns (year, week). -/
def isoYearWeek (dt : Date) : ℕ × ℕ :=
  let z := daysFromCivil dt
  let doy := z - daysFromCivil ⟨dt.year, 1, 1⟩ + 1
  let w := (doy + 10 - isoWeekday z) / 7
  if w = 0 then (dt.year - 1, isoWeeksInYear (dt.year - 1))
  else if isoWeeksInYear dt.year < w then (dt.year + 1, 1)
  else (dt.year, w)

/-- The `Week` column computed at `app.py` line 70:
`data['Date'].dt.isocalendar().week` — the ISO week NUMBER alone, with the
ISO year discarded. -/
def isoWeekNum (dt : Date) : ℕ := (isoYearWeek dt).2

/-- One row of the persisted table (`fitness_tracker.csv`), fields in the
column order written by `log_workout` (`app.py` lines 42-43). -/
structure WorkoutRecord where
  date : Date
  workoutType : String
  duration : ℚ
  calories : ℚ
  age : ℚ
  gender : String
  heartRate : ℚ
  bodyTemp : ℚ
deriving DecidableEq

/-- The header written by `initialize_file` (`app.py` lines 28-29). -/
def fullHeader : List String :=
  ["Date", "Workout Type", "Duration (mins)", "Calories Burned",
   "Age", "Gender", "Heart Rate", "Body Temperature"]

/-- A loaded pandas data frame: its column labels and its rows. -/
structure DataFrame where
  columns : List String
  rows : List WorkoutRecord
deriving DecidableEq

/-- `log_workout` (`app.py` lines 34-44).  The persisted table is the list
of rows after the header; `today` stands for `datetime.date.today()`.  If
`workout_type.strip()` is empty the function reports an error and returns
`False` without touching the file; otherwise it appends one row (with
today as the date) and returns `True`. -/
def log_workout (today : Date) (workout_type : String) (duration calories : ℚ)
    (age : ℚ) (gender : String) (heart_rate body_temp : ℚ)
    (table : List WorkoutRecord) : Bool × List WorkoutRecord :=
  if pyStrip workout_type = "" then
    (false, table)
  else
    (true, table ++ [⟨today, workout_type, duration, calories,
                      age, gender, heart_rate, body_temp⟩])

/-- `load_data` (`app.py` lines 47-53).  The backing file is `some rows`
when it exists (its header being the one `initialize_file` wrote) and
`none` when `pd.read_csv` raises `FileNotFoundError`; in that case the
source returns `pd.DataFrame(columns=["Date", "Workout Type",
"Duration (mins)", "Calories Burned"])` — four columns only. -/
def load_data : Option (List WorkoutRecord) → DataFrame
  | some rows => ⟨fullHeader, rows⟩
  | none => ⟨["Date", "Workout Type", "Duration (mins)", "Calories Burned"], []⟩

/-- A fitted `sklearn.linear_model.LinearRegression` over one feature. -/
structure LinModel where
  slope : ℚ
  intercept : ℚ
deriving DecidableEq

/-- `model.predict([[x]])[0]` for a one-feature linear model. -/
def predict (m : LinModel) (x : ℚ) : ℚ := m.slope * x + m.intercept

/-- The ordinary-least-squares closed form that `LinearRegression.fit`
computes for a single feature: slope = (nΣxy − ΣxΣy)/(nΣx² − (Σx)²),
intercept = (Σy − slope·Σx)/n.  (When every x is identical the centered
design is zero and the fit degenerates to slope 0 and intercept ȳ, which
is also what the rational division-by-zero convention yields here.) -/
def olsFit (pts : List (ℚ × ℚ)) : LinModel :=
  let n : ℚ := pts.length
  let sx := (pts.map Prod.fst).sum
  let sy := (pts.map Prod.snd).sum
  let sxx := (pts.map (fun p => p.1 * p.1)).sum
  let sxy := (pts.map (fun p => p.1 * p.2)).sum
  let slope := (n * sxy - sx * sy) / (n * sxx - sx * sx)
  ⟨slope, (sy - slope * sx) / n⟩

/-- `train_model` (`app.py` lines 56-63): with fewer than 2 records it
returns `None` (the insufficient-data signal); otherwise it fits
`Calories Burned` on `Duration (mins)` by ordinary least squares. -/
def train_model (data : List WorkoutRecord) : Option LinModel :=
  if data.length < 2 then none
  else some (olsFit (data.map fun r => (r.duration, r.calories)))

/-- The prediction-adjustment code in `main` (`app.py` lines 330-344):
base = model.predict(duration); ×1.2 if gender is Male, then ×1.15 if
heart rate exceeds 120, then ×0.9 if BMI exceeds 25. -/
def predict_adjusted (m : LinModel) (duration : ℚ) (gender : String)
    (heart_rate bmi : ℚ) : ℚ :=
  let base := predict m duration
  let base := if gender = "Male" then base * 1.2 else base
  let base := if heart_rate > 120 then base * 1.15 else base
  let base := if bmi > 25 then base * 0.9 else base
  base

/-- Strict code-point comparison of characters, the order Python uses to
sort strings. -/
def charLtb (a b : Char) : Bool := a.toNat < b.toNat

/-- Lexicographic (code-point) `≤` on character lists: the order in which
pandas sorts string values. -/
def listLe : List Char → List Char → Bool
  | [], _ => true
  | _ :: _, [] => false
  | a :: as, b :: bs =>
    if charLtb a b then true
    else if charLtb b a then false
    else listLe as bs

/-- The smaller of two strings in code-point order. -/
def strMin (a b : String) : String := if listLe a.data b.data then a else b

/-- `List.foldl` of `strMin`: the least string of `h :: t`, i.e. the first
element of the list after pandas sorts it ascending. -/
def strMinList (h : String) (t : List String) : String := t.foldl strMin h

/-- First-occurrence deduplication, accumulator form (the distinct values
of a column, as `pandas.Series.unique` lists them). -/
def firstDedupAux {α : Type} [DecidableEq α] : List α → List α → List α
  | [], acc => acc.reverse
  | a :: l, acc => if a ∈ acc then firstDedupAux l acc else firstDedupAux l (a :: acc)

/-- The distinct elements of a list, keeping first occurrences in order. -/
def firstDedup {α : Type} [DecidableEq α] (l : List α) : List α := firstDedupAux l []

/-- Number of records whose `Workout Type` equals `t`
(`value_counts` of the column at one key). -/
def typeCount (rs : List WorkoutRecord) (t : String) : ℕ :=
  (rs.map (·.workoutType)).count t

/-- The distinct workout types occurring in the record set. -/
def workoutTypes (rs : List WorkoutRecord) : List String :=
  firstDedup (rs.map (·.workoutType))

/-- The largest frequency of any workout type. -/
def maxTypeCount (rs : List WorkoutRecord) : ℕ :=
  ((workoutTypes rs).map (typeCount rs)).foldl max 0

/-- The workout types of maximal frequency — the set of modes that
`pandas.Series.mode` returns (it returns them sorted ascending). -/
def modeTypes (rs : List WorkoutRecord) : List String :=
  (workoutTypes rs).filter (fun t => typeCount rs t == maxTypeCount rs)

/-- `data["Workout Type"].mode().iloc[0]` (`app.py` line 109): the first
element of the sorted list of modes, i.e. the code-point-least mode. -/
def modalWorkout (rs : List WorkoutRecord) : String :=
  match modeTypes rs with
  | [] => ""
  | h :: t => strMinList h t

/-- The four dashboard metrics of `create_workout_stats`. -/
structure WorkoutStats where
  totalWorkouts : ℕ
  totalCalories : ℚ
  avgDuration : ℚ
  mostCommonWorkout : String
deriving DecidableEq

/-- `create_workout_stats` (`app.py` lines 104-119): on a non-empty frame,
the record count, the summed calories, the mean duration and the modal
workout type; on an empty frame the source renders nothing (`none`). -/
def create_workout_stats (rs : List WorkoutRecord) : Option WorkoutStats :=
  if rs.isEmpty then none
  else some ⟨rs.length,
             (rs.map (·.calories)).sum,
             (rs.map (·.duration)).sum / rs.length,
             modalWorkout rs⟩

/-- Insert a key into a sorted list of keys (ascending). -/
def insertKey (n : ℕ) : List ℕ → List ℕ
  | [] => [n]
  | m :: l => if n ≤ m then n :: m :: l else m :: insertKey n l

/-- Sort the group keys ascending, as `pandas.groupby` presents groups. -/
def sortKeys (l : List ℕ) : List ℕ := l.foldr insertKey []

/-- One row of the `weekly_stats` frame: the ISO week-number key, the
summed calories, the summed duration and the record count of the group. -/
structure WeekBucket where
  week : ℕ
  calories : ℚ
  duration : ℚ
  count : ℕ
deriving DecidableEq

/-- The records falling in week-number group `w`. -/
def weekGroup (rs : List WorkoutRecord) (w : ℕ) : List WorkoutRecord :=
  rs.filter (fun r => isoWeekNum r.date == w)

/-- The `weekly_stats` frame built inside `analyze_fitness_data`
(`app.py` lines 70-75): group by the ISO week number of the date and
aggregate calories by sum, duration by sum and workout type by count. -/
def weekly_stats (rs : List WorkoutRecord) : List WeekBucket :=
  (sortKeys (firstDedup (rs.map (fun r => isoWeekNum r.date)))).map
    (fun w => ⟨w,
               ((weekGroup rs w).map (·.calories)).sum,
               ((weekGroup rs w).map (·.duration)).sum,
               (weekGroup rs w).length⟩)

/-- The mean of a list of rationals (`pandas.Series.mean`). -/
def meanQ (l : List ℚ) : ℚ := l.sum / l.length

/-- The advisory emitted when fewer than 3 workouts fall in the last 7
days (`app.py` line 97). -/
def freqMsg : String :=
  "Consider increasing workout frequency to at least 3 times per week"

/-- The advisory emitted when the supplied efficiency is below the
cohort ratio (`app.py` line 100). -/
def effMsg : String :=
  "Try incorporating high-intensity intervals to improve workout efficiency"

/-- `get_personalized_recommendations` (`app.py` lines 89-102).  The source
reads the clock via `pd.Timestamp.now()`; that instant is made explicit
here as the parameter `now`, measured on the same day scale as
`daysFromCivil`.  A record is recent when its date is on or after
`now - 7` days (the source imposes no upper bound). -/
def get_personalized_recommendations (rs : List WorkoutRecord)
    (efficiency : ℚ) (now : ℚ) : List String :=
  if rs.isEmpty then []
  else
    let weekly_workouts := (rs.filter
      (fun r => now - 7 ≤ (daysFromCivil r.date : ℚ))).length
    (if weekly_workouts < 3 then [freqMsg] else []) ++
    (if efficiency < meanQ (rs.map (·.calories)) / meanQ (rs.map (·.duration))
      then [effMsg] else [])

/-- Modelled from the spec for comparison with `modalWorkout` (claim C6
speaks of ties "broken in favor of the first-encountered" workout type,
which is not what `mode().iloc[0]` computes): the first workout type, in
encounter order, whose frequency is maximal. -/
def modalFirstEncountered (rs : List WorkoutRecord) : String :=
  match (workoutTypes rs).filter (fun t => typeCount rs t == maxTypeCount rs) with
  | [] => ""
  | h :: _ => h

/-! ### Helper lemmas -/

theorem listLe_refl (l : List Char) : listLe l l = true := by
  induction l with
  | nil => rfl
  | cons a as ih => simp [listLe, charLtb, ih]

theorem listLe_total (a b : List Char) : listLe a b = true ∨ listLe b a = true := by
  induction a generalizing b with
  | nil => left; rfl
  | cons x xs ih =>
    cases b with
    | nil => right; rfl
    | cons y ys =>
      rcases Nat.lt_trichotomy x.toNat y.toNat with h | h | h
      · left; simp [listLe, charLtb, h]
      · have h1 : ¬ x.toNat < y.toNat := by omega
        have h2 : ¬ y.toNat < x.toNat := by omega
        rcases ih ys with hc | hc
        · left; simp [listLe, charLtb, h1, h2, hc]
        · right; simp [listLe, charLtb, h1, h2, hc]
      · right; simp [listLe, charLtb, h]

theorem listLe_trans (a b c : List Char) (hab : listLe a b = true)
    (hbc : listLe b c = true) : listLe a c = true := by
  induction a generalizing b c with
  | nil => rfl
  | cons x xs ih =>
    cases b with
    | nil => simp [listLe] at hab
    | cons y ys =>
      cases c with
      | nil => simp [listLe] at hbc
      | cons z zs =>
        by_cases h1 : x.toNat < y.toNat <;> by_cases h2 : y.toNat < z.toNat
        · simp [listLe, charLtb, show x.toNat < z.toNat by omega]
        · simp only [listLe, charLtb, h2, if_false, decide_eq_true_eq] at hbc
          by_cases h3 : z.toNat < y.toNat
          · simp [h3] at hbc
          · simp [listLe, charLtb, show x.toNat < z.toNat by omega]
        · simp only [listLe, charLtb, h1, if_false, decide_eq_true_eq] at hab
          by_cases h3 : y.toNat < x.toNat
          · simp [h3] at hab
          · simp [listLe, charLtb, show x.toNat < z.toNat by omega]
        · simp only [listLe, charLtb, h1, h2, if_false, decide_eq_true_eq] at hab hbc
          by_cases h3 : y.toNat < x.toNat
          · simp [h3] at hab
          · by_cases h4 : z.toNat < y.toNat
            · simp [h4] at hbc
            · simp only [h3, if_false] at hab
              simp only [h4, if_false] at hbc
              have g1 : ¬ x.toNat < z.toNat := by omega
              have g2 : ¬ z.toNat < x.toNat := by omega
              simp [listLe, charLtb, g1, g2, ih ys zs hab hbc]

theorem strMin_choice (a b : String) : strMin a b = a ∨ strMin a b = b := by
  unfold strMin; split <;> simp

theorem strMin_le_left (a b : String) : listLe (strMin a b).data a.data = true := by
  unfold strMin; split
  · exact listLe_refl _
  · rcases listLe_total a.data b.data with h | h
    · simp_all
    · exact h

theorem strMin_le_right (a b : String) : listLe (strMin a b).data b.data = true := by
  unfold strMin; split
  · assumption
  · exact listLe_refl _

theorem strMinList_mem (h : String) (t : List String) : strMinList h t ∈ h :: t := by
  induction t generalizing h with
  | nil => simp [strMinList]
  | cons b t ih =>
    have hstep : strMinList h (b :: t) = strMinList (strMin h b) t := rfl
    have hmem := ih (strMin h b)
    rw [hstep]
    rcases List.mem_cons.mp hmem with hEq | hmem2
    · rcases strMin_choice h b with hc | hc
      · rw [hEq, hc]; simp
      · rw [hEq, hc]; simp
    · simp [hmem2]

theorem strMinList_le (h : String) (t : List String) :
    ∀ x ∈ h :: t, listLe (strMinList h t).data x.data = true := by
  induction t generalizing h with
  | nil =>
    intro x hx
    rcases List.mem_cons.mp hx with rfl | hx
    · exact listLe_refl _
    · cases hx
  | cons b t ih =>
    intro x hx
    have hstep : strMinList h (b :: t) = strMinList (strMin h b) t := rfl
    rw [hstep]
    have hhead := ih (strMin h b) (strMin h b) (by simp)
    rcases List.mem_cons.mp hx with rfl | hx2
    · exact listLe_trans _ _ _ hhead (strMin_le_left x b)
    · rcases List.mem_cons.mp hx2 with rfl | hx3
      · exact listLe_trans _ _ _ hhead (strMin_le_right h x)
      · exact ih (strMin h b) x (by simp [hx3])

theorem le_foldl_max (a : ℕ) (l : List ℕ) : a ≤ l.foldl max a := by
  induction l generalizing a with
  | nil => exact le_refl a
  | cons b t ih => exact le_trans (le_max_left a b) (ih (max a b))

theorem foldl_max_le_of_mem (l : List ℕ) (a x : ℕ) (hx : x ∈ l) :
    x ≤ l.foldl max a := by
  induction l generalizing a with
  | nil => cases hx
  | cons b t ih =>
    rcases List.mem_cons.mp hx with rfl | hx2
    · exact le_trans (le_max_right a x) (le_foldl_max (max a x) t)
    · exact ih (max a b) hx2

theorem foldl_max_mem (l : List ℕ) (a : ℕ) :
    l.foldl max a = a ∨ l.foldl max a ∈ l := by
  induction l generalizing a with
  | nil => left; rfl
  | cons b t ih =>
    have hstep : (b :: t).foldl max a = t.foldl max (max a b) := rfl
    rw [hstep]
    rcases ih (max a b) with h | h
    · rcases max_choice a b with h2 | h2
      · left; rw [h, h2]
      · right; rw [h, h2]; simp
    · right; simp [h]

theorem mem_firstDedupAux {α : Type} [DecidableEq α] (l : List α) (acc : List α)
    (x : α) : x ∈ firstDedupAux l acc ↔ x ∈ acc ∨ x ∈ l := by
  induction l generalizing acc with
  | nil => simp [firstDedupAux]
  | cons a t ih =>
    by_cases ha : a ∈ acc
    · rw [show firstDedupAux (a :: t) acc = firstDedupAux t acc from by
        simp [firstDedupAux, ha]]
      rw [ih]
      constructor
      · rintro (h | h)
        · exact Or.inl h
        · exact Or.inr (List.mem_cons_of_mem a h)
      · rintro (h | h)
        · exact Or.inl h
        · rcases List.mem_cons.mp h with rfl | h2
          · exact Or.inl ha
          · exact Or.inr h2
    · rw [show firstDedupAux (a :: t) acc = firstDedupAux t (a :: acc) from by
        simp [firstDedupAux, ha]]
      rw [ih]
      constructor
      · rintro (h | h)
        · rcases List.mem_cons.mp h with rfl | h2
          · exact Or.inr (List.mem_cons_self x t)
          · exact Or.inl h2
        · exact Or.inr (List.mem_cons_of_mem a h)
      · rintro (h | h)
        · exact Or.inl (List.mem_cons_of_mem a h)
        · rcases List.mem_cons.mp h with rfl | h2
          · exact Or.inl (List.mem_cons_self x acc)
          · exact Or.inr h2

theorem mem_firstDedup {α : Type} [DecidableEq α] (l : List α) (x : α) :
    x ∈ firstDedup l ↔ x ∈ l := by
  simp [firstDedup, mem_firstDedupAux]

theorem length_insertKey (n : ℕ) (l : List ℕ) :
    (insertKey n l).length = l.length + 1 := by
  induction l with
  | nil => rfl
  | cons m t ih =>
    unfold insertKey
    split
    · simp
    · simp [ih]

theorem length_sortKeys (l : List ℕ) : (sortKeys l).length = l.length := by
  induction l with
  | nil => rfl
  | cons a t ih =>
    have hstep : sortKeys (a :: t) = insertKey a (sortKeys t) := rfl
    rw [hstep, length_insertKey, ih, List.length_cons]

theorem mem_insertKey (x n : ℕ) (l : List ℕ) :
    x ∈ insertKey n l ↔ x = n ∨ x ∈ l := by
  induction l with
  | nil => simp [insertKey]
  | cons m t ih =>
    unfold insertKey
    split
    · simp
    · simp only [List.mem_cons, ih]
      tauto

theorem mem_sortKeys (x : ℕ) (l : List ℕ) : x ∈ sortKeys l ↔ x ∈ l := by
  induction l with
  | nil => simp [sortKeys]
  | cons a t ih =>
    have hstep : sortKeys (a :: t) = insertKey a (sortKeys t) := rfl
    rw [hstep, mem_insertKey]
    simp [ih, eq_comm]

theorem isEmpty_false_of_ne_nil {rs : List WorkoutRecord} (h : rs ≠ []) :
    rs.isEmpty = false := by
  cases rs with
  | nil => exact absurd rfl h
  | cons a t => rfl

theorem typeCount_pos_of_mem {rs : List WorkoutRecord} {t : String}
    (h : t ∈ rs.map (·.workoutType)) : 0 < typeCount rs t := by
  rcases Nat.eq_zero_or_pos (typeCount rs t) with h0 | h0
  · exact absurd (List.count_eq_zero.mp h0) (by simpa using h)
  · exact h0

theorem typeCount_le_max {rs : List WorkoutRecord} {t : String}
    (h : t ∈ workoutTypes rs) : typeCount rs t ≤ maxTypeCount rs :=
  foldl_max_le_of_mem _ 0 _ (List.mem_map_of_mem (typeCount rs) h)

theorem maxTypeCount_attained {rs : List WorkoutRecord} (h : rs ≠ []) :
    ∃ t ∈ workoutTypes rs, typeCount rs t = maxTypeCount rs := by
  rcases foldl_max_mem ((workoutTypes rs).map (typeCount rs)) 0 with h0 | hmem
  · exfalso
    cases rs with
    | nil => exact h rfl
    | cons r rs' =>
      have hm : r.workoutType ∈ (r :: rs').map (·.workoutType) := by simp
      have hw : r.workoutType ∈ workoutTypes (r :: rs') :=
        (mem_firstDedup _ _).mpr hm
      have hpos : 0 < typeCount (r :: rs') r.workoutType := typeCount_pos_of_mem hm
      have hle : typeCount (r :: rs') r.workoutType ≤ maxTypeCount (r :: rs') :=
        typeCount_le_max hw
      rw [maxTypeCount] at hle
      omega
  · rcases List.mem_map.mp hmem with ⟨t, ht, hEq⟩
    exact ⟨t, ht, hEq⟩

theorem modeTypes_ne_nil {rs : List WorkoutRecord} (h : rs ≠ []) :
    modeTypes rs ≠ [] := by
  obtain ⟨t, ht, hEq⟩ := maxTypeCount_attained h
  have hmem : t ∈ modeTypes rs :=
    List.mem_filter.mpr ⟨ht, by simp [hEq]⟩
  intro hnil
  rw [hnil] at hmem
  cases hmem

theorem mem_modeTypes_iff (rs : List WorkoutRecord) (t : String) :
    t ∈ modeTypes rs ↔
      t ∈ rs.map (·.workoutType) ∧
        ∀ u ∈ rs.map (·.workoutType), typeCount rs u ≤ typeCount rs t := by
  constructor
  · intro hmem
    obtain ⟨hw, hb⟩ := List.mem_filter.mp hmem
    have hEq : typeCount rs t = maxTypeCount rs := by simpa using hb
    refine ⟨(mem_firstDedup _ _).mp hw, ?_⟩
    intro u hu
    have hwu : u ∈ workoutTypes rs := (mem_firstDedup _ _).mpr hu
    calc typeCount rs u ≤ maxTypeCount rs := typeCount_le_max hwu
    _ = typeCount rs t := hEq.symm
  · rintro ⟨hmem, hmax⟩
    have hw : t ∈ workoutTypes rs := (mem_firstDedup _ _).mpr hmem
    have hle : typeCount rs t ≤ maxTypeCount rs := typeCount_le_max hw
    have hge : maxTypeCount rs ≤ typeCount rs t := by
      rcases foldl_max_mem ((workoutTypes rs).map (typeCount rs)) 0 with h0 | hmem2
      · rw [maxTypeCount, h0]; omega
      · rcases List.mem_map.mp hmem2 with ⟨u, hu, hEq⟩
        rw [maxTypeCount, ← hEq]
        exact hmax u ((mem_firstDedup _ _).mp hu)
    exact List.mem_filter.mpr ⟨hw, by simp; omega⟩

theorem modalWorkout_mem {rs : List WorkoutRecord} (h : rs ≠ []) :
    modalWorkout rs ∈ modeTypes rs := by
  rcases hm : modeTypes rs with _ | ⟨a, t⟩
  · exact absurd hm (modeTypes_ne_nil h)
  · have hmod : modalWorkout rs = strMinList a t := by
      unfold modalWorkout; rw [hm]
    rw [hmod]
    exact strMinList_mem a t

theorem modalWorkout_le {rs : List WorkoutRecord} (h : rs ≠ []) :
    ∀ t ∈ modeTypes rs, listLe (modalWorkout rs).data t.data = true := by
  rcases hm : modeTypes rs with _ | ⟨a, t⟩
  · exact absurd hm (modeTypes_ne_nil h)
  · have hmod : modalWorkout rs = strMinList a t := by
      unfold modalWorkout; rw [hm]
    rw [hmod]
    exact strMinList_le a t

/-! ### Concrete records used in scenario checks and counterexamples -/

/-- A fixed example date. -/
def exDate : Date := ⟨2024, 1, 1⟩

/-- An example record with all invariants satisfied. -/
def exRec : WorkoutRecord := ⟨exDate, "Yoga", 30, 150, 28, "Female", 110, 36.8⟩

/-- First record of the regression scenario: 10 minutes, 100 calories. -/
def recFitA : WorkoutRecord := ⟨exDate, "Running", 10, 100, 30, "Male", 100, 37⟩

/-- Second record of the regression scenario: 20 minutes, 180 calories. -/
def recFitB : WorkoutRecord := ⟨exDate, "Running", 20, 180, 30, "Male", 100, 37⟩

/-- Two records with distinct workout types, each occurring once: the modal
type is tied between "Yoga" (first encountered) and "Cardio". -/
def exRS6 : List WorkoutRecord :=
  [⟨exDate, "Yoga", 10, 100, 30, "Female", 100, 37⟩,
   ⟨exDate, "Cardio", 20, 180, 30, "Female", 100, 37⟩]

/-- Records on 2023-01-02 (ISO week 1 of 2023) and 2024-01-01 (ISO week 1
of 2024): two distinct ISO calendar weeks, one shared week number. -/
def exRS7 : List WorkoutRecord :=
  [⟨⟨2023, 1, 2⟩, "Running", 30, 300, 30, "Male", 100, 37⟩,
   ⟨⟨2024, 1, 1⟩, "Running", 30, 300, 30, "Male", 100, 37⟩]

/-- Records on 2024-01-01 (ISO week 1) and 2024-01-08 (ISO week 2). -/
def exRS7b : List WorkoutRecord :=
  [⟨⟨2024, 1, 1⟩, "Running", 30, 300, 30, "Male", 100, 37⟩,
   ⟨⟨2024, 1, 8⟩, "Swimming", 60, 500, 30, "Male", 100, 37⟩]

/-- Three identical records on the example date (cohort efficiency 10). -/
def exRS9 : List WorkoutRecord :=
  [⟨exDate, "Running", 10, 100, 30, "Male", 100, 37⟩,
   ⟨exDate, "Running", 10, 100, 30, "Male", 100, 37⟩,
   ⟨exDate, "Running", 10, 100, 30, "Male", 100, 37⟩]

/-- The instant of `exDate`, on the day scale used by `daysFromCivil`. -/
def exNow9 : ℚ := (daysFromCivil exDate : ℕ)

/-! ### Claims -/

/-- Claim C1: for every fitted model and every input, `predict_adjusted`
returns `model.predict(duration)` multiplied by 1.2 when gender is Male,
then by 1.15 when the heart rate exceeds 120, then by 0.9 when the BMI
exceeds 25, in that order with no other adjustment and no clamping; in
particular, for gender Male, heart rate 130, BMI 30 the result is
exactly base × 1.2 × 1.15 × 0.9. -/
theorem predict_adjusted_spec (m : LinModel) (duration : ℚ) (gender : String)
    (heart_rate bmi : ℚ) :
    predict_adjusted m duration gender heart_rate bmi =
      predict m duration * (if gender = "Male" then 1.2 else 1) *
        (if heart_rate > 120 then 1.15 else 1) *
        (if bmi > 25 then 0.9 else 1) ∧
    predict_adjusted m duration "Male" 130 30 =
      predict m duration * 1.2 * 1.15 * 0.9 := by
  constructor
  · unfold predict_adjusted
    split_ifs <;> ring
  · unfold predict_adjusted
    norm_num

/-- Claim C2: `train_model` fails (returns `none`, the insufficient-data
signal) exactly when the record set has fewer than 2 records; on 2 or
more it returns the ordinary-least-squares fit of calories on duration,
and on the two records with durations 10, 20 and calories 100, 180 the
fitted model satisfies `predict 15 = 140`. -/
theorem train_model_spec :
    (∀ data : List WorkoutRecord, train_model data = none ↔ data.length < 2) ∧
    (∃ m : LinModel, train_model [recFitA, recFitB] = some m ∧
      predict m 15 = 140) := by
  constructor
  · intro data
    unfold train_model
    split_ifs with h
    · simp [h]
    · simp [h]
  · refine ⟨⟨8, 20⟩, ?_, by norm_num [predict]⟩
    simp [train_model, recFitA, recFitB, olsFit]
    norm_num

/-- Claim C3: whenever the workout type is empty or whitespace-only after
stripping, `log_workout` fails (returns `False`) and leaves the persisted
table completely unchanged. -/
theorem log_workout_blank_type_rejected (today : Date) (wt : String)
    (duration calories age : ℚ) (gender : String) (heart_rate body_temp : ℚ)
    (table : List WorkoutRecord) (h : pyStrip wt = "") :
    log_workout today wt duration calories age gender heart_rate body_temp
      table = (false, table) := by
  simp [log_workout, h]

/-- Witness for C3 at a whitespace-only type and a non-empty table. -/
theorem log_workout_blank_type_rejected_witness :
    pyStrip " \t " = "" ∧
    log_workout exDate " \t " 30 200 30 "Male" 100 37 [exRec] =
      (false, [exRec]) :=
  ⟨by decide,
   log_workout_blank_type_rejected exDate " \t " 30 200 30 "Male" 100 37
     [exRec] (by decide)⟩

/-- Claim C4: a successful `log_workout` followed by `load_data` yields a
row list whose last element is the logged record with today's date, with
all previously persisted rows unchanged and in their original order. -/
theorem log_workout_roundtrip (today : Date) (wt : String)
    (duration calories age : ℚ) (gender : String) (heart_rate body_temp : ℚ)
    (table : List WorkoutRecord) (hwt : pyStrip wt ≠ "")
    (hdur : 0 < duration) (hcal : 0 < calories) :
    (log_workout today wt duration calories age gender heart_rate body_temp
      table).1 = true ∧
    (load_data (some (log_workout today wt duration calories age gender
        heart_rate body_temp table).2)).rows =
      table ++ [⟨today, wt, duration, calories, age, gender, heart_rate,
                 body_temp⟩] ∧
    (load_data (some (log_workout today wt duration calories age gender
        heart_rate body_temp table).2)).rows.getLast? =
      some ⟨today, wt, duration, calories, age, gender, heart_rate,
            body_temp⟩ ∧
    (load_data (some (log_workout today wt duration calories age gender
        heart_rate body_temp table).2)).rows.take table.length = table := by
  refine ⟨?_, ?_, ?_, ?_⟩ <;>
    simp [log_workout, hwt, load_data, List.getLast?_concat, List.take_left]

/-- Witness for C4: logging a valid record over a one-row table. -/
theorem log_workout_roundtrip_witness :
    (pyStrip "Swimming" ≠ "" ∧ (0:ℚ) < 45 ∧ (0:ℚ) < 320) ∧
    ((log_workout exDate "Swimming" 45 320 31 "Female" 115 37 [exRec]).1
        = true ∧
      (load_data (some (log_workout exDate "Swimming" 45 320 31 "Female" 115
          37 [exRec]).2)).rows =
        [exRec] ++ [⟨exDate, "Swimming", 45, 320, 31, "Female", 115, 37⟩] ∧
      (load_data (some (log_workout exDate "Swimming" 45 320 31 "Female" 115
          37 [exRec]).2)).rows.getLast? =
        some ⟨exDate, "Swimming", 45, 320, 31, "Female", 115, 37⟩ ∧
      (load_data (some (log_workout exDate "Swimming" 45 320 31 "Female" 115
          37 [exRec]).2)).rows.take [exRec].length = [exRec]) :=
  ⟨⟨by decide, by decide, by decide⟩,
   log_workout_roundtrip exDate "Swimming" 45 320 31 "Female" 115 37 [exRec]
     (by decide) (by decide) (by decide)⟩

/-- Counterexample to claim C5: when the backing file is missing,
`load_data` returns a frame whose header is NOT the fixed eight-column
schema — it carries only the four columns Date, Workout Type,
Duration (mins), Calories Burned. -/
theorem load_data_missing_schema_counterexample :
    (load_data none).rows = [] ∧
    (load_data none).columns ≠ fullHeader ∧
    (load_data none).columns =
      ["Date", "Workout Type", "Duration (mins)", "Calories Burned"] := by
  refine ⟨rfl, by decide, rfl⟩

/-- Claim C5 as amended: when the backing file does not exist, `load_data`
returns (without raising) an empty row list whose header is the first
FOUR columns of the fixed schema, not all eight. -/
theorem load_data_missing_file_spec :
    (load_data none).rows = [] ∧
    (load_data none).columns = fullHeader.take 4 := by
  refine ⟨rfl, by decide⟩

/-- Counterexample to claim C6: on two records typed "Yoga" then "Cardio"
(a frequency tie), the source's `mode().iloc[0]` yields the
alphabetically least mode "Cardio", not the first-encountered "Yoga". -/
theorem modal_tie_counterexample :
    (create_workout_stats exRS6).map (fun s => s.mostCommonWorkout) =
      some "Cardio" ∧
    modalFirstEncountered exRS6 = "Yoga" ∧
    ("Cardio" : String) ≠ "Yoga" := by
  refine ⟨by decide, by decide, by decide⟩

/-- Claim C6 as amended: for every non-empty record set,
`create_workout_stats` returns the total record count, the total
calories, the mean duration, and a modal workout type, where a tie
between equally frequent types is broken in favor of the one least in
code-point (alphabetical) order, not the first-encountered one. -/
theorem create_workout_stats_spec (rs : List WorkoutRecord) (h : rs ≠ []) :
    ∃ s, create_workout_stats rs = some s ∧
      s.totalWorkouts = rs.length ∧
      s.totalCalories = (rs.map (·.calories)).sum ∧
      s.avgDuration = (rs.map (·.duration)).sum / rs.length ∧
      s.mostCommonWorkout ∈ modeTypes rs ∧
      (∀ t ∈ modeTypes rs,
        listLe s.mostCommonWorkout.data t.data = true) ∧
      (∀ t, t ∈ modeTypes rs ↔
        t ∈ rs.map (·.workoutType) ∧
          ∀ u ∈ rs.map (·.workoutType),
            typeCount rs u ≤ typeCount rs t) := by
  refine ⟨⟨rs.length, (rs.map (·.calories)).sum,
           (rs.map (·.duration)).sum / rs.length, modalWorkout rs⟩,
         ?_, rfl, rfl, rfl, modalWorkout_mem h, modalWorkout_le h,
         mem_modeTypes_iff rs⟩
  simp [create_workout_stats, isEmpty_false_of_ne_nil h]

/-- Witness for the amended C6 at the tied two-record set. -/
theorem create_workout_stats_spec_witness :
    exRS6 ≠ [] ∧
    (∃ s, create_workout_stats exRS6 = some s ∧
      s.totalWorkouts = exRS6.length ∧
      s.totalCalories = (exRS6.map (·.calories)).sum ∧
      s.avgDuration = (exRS6.map (·.duration)).sum / exRS6.length ∧
      s.mostCommonWorkout ∈ modeTypes exRS6 ∧
      (∀ t ∈ modeTypes exRS6,
        listLe s.mostCommonWorkout.data t.data = true) ∧
      (∀ t, t ∈ modeTypes exRS6 ↔
        t ∈ exRS6.map (·.workoutType) ∧
          ∀ u ∈ exRS6.map (·.workoutType),
            typeCount exRS6 u ≤ typeCount exRS6 t)) :=
  ⟨by decide, create_workout_stats_spec exRS6 (by decide)⟩

/-- Counterexample to claim C7: the records of `exRS7` lie in two distinct
ISO calendar weeks (week 1 of ISO year 2023 and week 1 of ISO year 2024),
yet `weekly_stats` groups by the week number alone and returns a single
bucket, not two. -/
theorem weekly_rollup_year_collision :
    isoYearWeek ⟨2023, 1, 2⟩ ≠ isoYearWeek ⟨2024, 1, 1⟩ ∧
    isoWeekNum ⟨2023, 1, 2⟩ = isoWeekNum ⟨2024, 1, 1⟩ ∧
    (weekly_stats exRS7).length = 1 := by
  refine ⟨by decide, by decide, by decide⟩

/-- Claim C7 as amended: for every record set whose records carry exactly
two distinct ISO week NUMBERS (the grouping key of the source, which
discards the ISO year), `weekly_stats` returns exactly two buckets; each
bucket sums the calories and the durations and counts the records of its
own week-number group alone, and every bucket contains at least one
record (weeks with zero records produce no bucket). -/
theorem weekly_stats_two_week_numbers (rs : List WorkoutRecord)
    (h : (firstDedup (rs.map (fun r => isoWeekNum r.date))).length = 2) :
    (weekly_stats rs).length = 2 ∧
    ∀ b ∈ weekly_stats rs,
      b.calories = ((weekGroup rs b.week).map (·.calories)).sum ∧
      b.duration = ((weekGroup rs b.week).map (·.duration)).sum ∧
      b.count = (weekGroup rs b.week).length ∧
      ∃ r ∈ rs, isoWeekNum r.date = b.week := by
  constructor
  · simp [weekly_stats, length_sortKeys, h]
  · intro b hb
    obtain ⟨w, hw, hbw⟩ := List.mem_map.mp hb
    have hbweek : b.week = w := by rw [← hbw]
    subst hbw
    refine ⟨rfl, rfl, rfl, ?_⟩
    have hw2 : w ∈ rs.map (fun r => isoWeekNum r.date) :=
      (mem_firstDedup _ _).mp ((mem_sortKeys _ _).mp hw)
    obtain ⟨r, hr, hEq⟩ := List.mem_map.mp hw2
    exact ⟨r, hr, hEq⟩

/-- Witness for the amended C7: records in ISO weeks 1 and 2 of 2024. -/
theorem weekly_stats_two_week_numbers_witness :
    (firstDedup (exRS7b.map (fun r => isoWeekNum r.date))).length = 2 ∧
    ((weekly_stats exRS7b).length = 2 ∧
      ∀ b ∈ weekly_stats exRS7b,
        b.calories = ((weekGroup exRS7b b.week).map (·.calories)).sum ∧
        b.duration = ((weekGroup exRS7b b.week).map (·.duration)).sum ∧
        b.count = (weekGroup exRS7b b.week).length ∧
        ∃ r ∈ exRS7b, isoWeekNum r.date = b.week) :=
  ⟨by decide, weekly_stats_two_week_numbers exRS7b (by decide)⟩

/-- Claim C8: for every non-empty record set and every efficiency value,
the "improve efficiency" advisory is emitted exactly when the efficiency
is strictly below the aggregate ratio sum(calories)/sum(duration) of the
full set (the source's mean(calories)/mean(duration) equals that
aggregate ratio, not the mean of per-record ratios); on an empty record
set the result is the empty sequence. -/
theorem recommendations_efficiency_spec (rs : List WorkoutRecord)
    (efficiency now : ℚ) (h : rs ≠ []) :
    (effMsg ∈ get_personalized_recommendations rs efficiency now ↔
      efficiency <
        (rs.map (·.calories)).sum / (rs.map (·.duration)).sum) ∧
    get_personalized_recommendations [] efficiency now = [] := by
  refine ⟨?_, rfl⟩
  have hne := isEmpty_false_of_ne_nil h
  have hn : (rs.length : ℚ) ≠ 0 := by
    have hl : rs.length ≠ 0 := by
      intro h0
      exact h (List.length_eq_zero.mp h0)
    exact_mod_cast hl
  have hmm : meanQ (rs.map (·.calories)) / meanQ (rs.map (·.duration)) =
      (rs.map (·.calories)).sum / (rs.map (·.duration)).sum := by
    unfold meanQ
    rw [List.length_map, List.length_map]
    rcases eq_or_ne ((rs.map (·.duration)).sum) 0 with hz | hz
    · rw [hz]
      simp
    · field_simp
  have hne2 : effMsg ≠ freqMsg := by decide
  simp only [get_personalized_recommendations, hne, Bool.false_eq_true,
    if_false, hmm]
  split_ifs with h1 h2 h2 <;> simp [h2, hne2]

/-- Witness for C8 at a concrete non-empty record set. -/
theorem recommendations_efficiency_spec_witness :
    exRS6 ≠ [] ∧
    ((effMsg ∈ get_personalized_recommendations exRS6 5 exNow9 ↔
      (5 : ℚ) <
        (exRS6.map (·.calories)).sum / (exRS6.map (·.duration)).sum) ∧
      get_personalized_recommendations [] 5 exNow9 = []) :=
  ⟨by decide, recommendations_efficiency_spec exRS6 5 exNow9 (by decide)⟩

/-- Counterexample to claim C9: the recent-workout count inside
`get_personalized_recommendations` is taken relative to the system clock
(`pd.Timestamp.now()`), which is not a caller-supplied parameter of the
source function: with the clock instant made explicit, the same record
set and the same efficiency give different results at two different
clock instants, so two runs on the same record set need not agree. -/
theorem recommendations_now_dependent :
    get_personalized_recommendations exRS9 10 exNow9 ≠
      get_personalized_recommendations exRS9 10 (exNow9 + 100) := by
  simp [get_personalized_recommendations, exRS9, meanQ, freqMsg, effMsg]
  norm_num [exNow9, exDate, daysFromCivil]

/-- Claim C9 as amended: the recent-workout count of
`get_personalized_recommendations` depends on the clock instant read via
`pd.Timestamp.now()`; with that instant modelled as the explicit
parameter `now`, the function is a pure function of its arguments, and
the "increase frequency" advisory is emitted exactly when fewer than 3
records have a date on or after `now - 7` days. -/
theorem recommendations_frequency_spec (rs : List WorkoutRecord)
    (efficiency now : ℚ) (h : rs ≠ []) :
    freqMsg ∈ get_personalized_recommendations rs efficiency now ↔
      (rs.filter
        (fun r => now - 7 ≤ (daysFromCivil r.date : ℚ))).length < 3 := by
  have hne := isEmpty_false_of_ne_nil h
  have hne2 : freqMsg ≠ effMsg := by decide
  simp only [get_personalized_recommendations, hne, Bool.false_eq_true,
    if_false]
  split_ifs with h1 h2 h2
  · exact iff_of_true (by simp) h1
  · exact iff_of_true (by simp) h1
  · exact iff_of_false (by simp [hne2]) h1
  · exact iff_of_false (by simp) h1

/-- Witness for the amended C9 at a concrete record set and instant. -/
theorem recommendations_frequency_spec_witness :
    exRS9 ≠ [] ∧
    (freqMsg ∈ get_personalized_recommendations exRS9 10 exNow9 ↔
      (exRS9.filter
        (fun r => exNow9 - 7 ≤ (daysFromCivil r.date : ℚ))).length < 3) :=
  ⟨by decide, recommendations_frequency_spec exRS9 10 exNow9 (by decide)⟩

/-- Counterexample to claim C10: `log_workout` succeeds and persists a
row with negative duration and negative calories — it validates only the
workout type, so positivity of the numeric fields is not an invariant it
enforces. -/
theorem log_workout_no_positivity_check :
    log_workout exDate "Running" (-5) (-10) 25 "Male" 100 37 [] =
      (true, [⟨exDate, "Running", -5, -10, 25, "Male", 100, 37⟩]) ∧
    ¬ (0 < (-5 : ℚ)) ∧ ¬ (0 < (-10 : ℚ)) := by
  refine ⟨by decide, by decide, by decide⟩

/-- Claim C10 as amended: the only data-model invariant `log_workout`
itself enforces is that the workout type is non-empty after stripping:
if every persisted row satisfies it, every row after any `log_workout`
call still satisfies it (positivity of duration and calories is checked
only by the UI form, not by the append operation). -/
theorem log_workout_type_invariant (today : Date) (wt : String)
    (duration calories age : ℚ) (gender : String) (heart_rate body_temp : ℚ)
    (table : List WorkoutRecord)
    (h : ∀ r ∈ table, pyStrip r.workoutType ≠ "") :
    ∀ r ∈ (log_workout today wt duration calories age gender heart_rate
        body_temp table).2, pyStrip r.workoutType ≠ "" := by
  intro r hr
  by_cases hwt : pyStrip wt = ""
  · simp [log_workout, hwt] at hr
    exact h r hr
  · simp [log_workout, hwt] at hr
    rcases hr with hr | rfl
    · exact h r hr
    · simpa using hwt

/-- Witness for the amended C10 over a one-row table. -/
theorem log_workout_type_invariant_witness :
    (∀ r ∈ [exRec], pyStrip r.workoutType ≠ "") ∧
    (∀ r ∈ (log_workout exDate "Pilates" 50 280 29 "Female" 108 37
        [exRec]).2, pyStrip r.workoutType ≠ "") :=
  ⟨by decide,
   log_workout_type_invariant exDate "Pilates" 50 280 29 "Female" 108 37
     [exRec] (by decide)⟩
